import Mathlib

/-!
Shallow embedding of the IMVU client (`src/unnamed/part_000`, class `IMVUClient`):
a JavaScript-value model with JS truthiness and `||` fallback semantics, the
field-normalization functions (`parseUserData`, `parseAvatarData`,
`parseProfileData`), the fetchers (`getUserById`, `getUserByUsername`,
`getAvatarData`, `getProfileData`, `getUserData`) over an explicit HTTP
environment that records the requests issued, and the two-step `login`
handshake over explicit session state.
-/

set_option autoImplicit false

namespace IMVU

/-- Model of a JavaScript/JSON value as it flows through the client.
`undefined` is the result of reading an absent property; `date` stands for a
freshly constructed `Date` (the client only ever uses it as an opaque default,
never inspecting it). Numbers are modelled as integers: every numeric value the
client manipulates (ids, counts, ages) is integral, and no claim depends on
non-integral arithmetic. -/
inductive JsValue where
  | undefined
  | null
  | bool (b : Bool)
  | num (n : Int)
  | str (s : String)
  | arr (elems : List JsValue)
  | obj (fields : List (String × JsValue))
  | date

/-- JavaScript truthiness: `undefined`, `null`, `false`, `0`, and `""` are
falsy; every object, array and `Date` is truthy (including `[]` and `{}`). -/
def truthy : JsValue → Bool
  | .undefined => false
  | .null => false
  | .bool b => b
  | .num n => n != 0
  | .str s => s ≠ ""
  | .arr _ => true
  | .obj _ => true
  | .date => true

/-- Property read `v[k]` for a property that is not special-cased: on an object
it is the bound value (or `undefined` when the key is absent); on any
non-object it is `undefined`. (Reads on `null`/`undefined`, which throw in
JavaScript, are modelled separately by `getOrThrow`.) -/
def JsValue.get (v : JsValue) (k : String) : JsValue :=
  match v with
  | .obj fields =>
    match fields.find? (fun p => p.1 == k) with
    | some p => p.2
    | none => .undefined
  | _ => .undefined

/-- Whether an object value carries the key `k` at all (presence, as opposed
to truthiness of the bound value). -/
def hasKey (v : JsValue) (k : String) : Bool :=
  match v with
  | .obj fields => fields.any (fun p => p.1 == k)
  | _ => false

/-- `Object.keys` on the modelled value (empty for non-objects). -/
def objKeys : JsValue → List String
  | .obj fields => fields.map (fun p => p.1)
  | _ => []

/-- JavaScript `a || b`: the left operand when truthy, otherwise the right. -/
def jsOr (a b : JsValue) : JsValue :=
  if truthy a then a else b

/-- JavaScript strict comparison `v === s` against a string literal. -/
def strictEqStr (v : JsValue) (s : String) : Bool :=
  match v with
  | .str t => t == s
  | _ => false

/-- Property access `v.k` as the JavaScript evaluator performs it: reading a
property of `null` or `undefined` throws a `TypeError`; any other value yields
the property (possibly `undefined`). -/
def getOrThrow (v : JsValue) (k : String) : Except Unit JsValue :=
  match v with
  | .undefined => .error ()
  | .null => .error ()
  | _ => .ok (v.get k)

/-- JavaScript stringification as used by template literals and bracket
indexing (`String(v)`). Arrays and dates are mapped to fixed placeholder
strings: the client only ever stringifies ids and resource keys, which are
strings or numbers in every payload shape it handles, and no claim depends on
array or date stringification. -/
def jsToString : JsValue → String
  | .undefined => "undefined"
  | .null => "null"
  | .bool b => if b then "true" else "false"
  | .num n => toString n
  | .str s => s
  | .arr _ => ""
  | .obj _ => "[object Object]"
  | .date => ""

/-- `v.length > 0` for the values on which the client evaluates it: positive
length for arrays and strings, `false` for everything else (where `.length` is
`undefined` and `undefined > 0` is `false`). -/
def jsLenPos : JsValue → Bool
  | .arr elems => !elems.isEmpty
  | .str s => !s.data.isEmpty
  | _ => false

/-- `v[0]`: the first element of an array, the first character of a string,
`undefined` otherwise. -/
def jsIndex0 : JsValue → JsValue
  | .arr (x :: _) => x
  | .arr [] => .undefined
  | .str s =>
    match s.data with
    | c :: _ => .str ⟨[c]⟩
    | [] => .undefined
  | _ => .undefined

/-- Does the first list start with the second? (character-list helper for the
substring operations below). -/
def charListStartsWith : List Char → List Char → Bool
  | _, [] => true
  | [], _ :: _ => false
  | c :: cs, p :: ps => c == p && charListStartsWith cs ps

/-- Split a character list at the first occurrence of `pat`, returning the
part before the match and the part after it; `none` when `pat` does not occur. -/
def splitFirst : List Char → List Char → Option (List Char × List Char)
  | [], pat => if pat.isEmpty then some ([], []) else none
  | c :: cs, pat =>
    if charListStartsWith (c :: cs) pat then some ([], (c :: cs).drop pat.length)
    else
      match splitFirst cs pat with
      | some (pre, post) => some (c :: pre, post)
      | none => none

/-- JavaScript `s.includes(pat)`. -/
def containsSub (s pat : String) : Bool :=
  (splitFirst s.data pat.data).isSome

/-- JavaScript `s.replace(pat, newSub)` with a string pattern: replaces only the
first occurrence. -/
def replaceFirst (s pat newSub : String) : String :=
  match splitFirst s.data pat.data with
  | some (pre, post) => ⟨pre ++ newSub.data ++ post⟩
  | none => s

/-- The regular expression test of `getUserData`: `/^\d+$/.test(query)` — one
or more ASCII decimal digits and nothing else. -/
def isNumericString (s : String) : Bool :=
  !s.data.isEmpty && s.data.all (fun c => c.isDigit)

/-- The normalized user record built by `parseUserData` (field values keep
their JavaScript types). -/
structure UserRecord where
  id : JsValue
  username : JsValue
  displayName : JsValue
  gender : JsValue
  age : JsValue
  country : JsValue
  state : JsValue
  avatarImage : JsValue
  avatarPortraitImage : JsValue
  isVip : JsValue
  isCreator : JsValue
  isAp : JsValue
  isStaff : JsValue
  isAdult : JsValue
  isAgeVerified : JsValue
  created : JsValue
  registered : JsValue

/-- The normalized avatar record built by `parseAvatarData`. -/
structure AvatarRecord where
  lookUrl : JsValue
  assetUrl : JsValue
  gender : JsValue
  products : JsValue

/-- The normalized profile record built by `parseProfileData`. -/
structure ProfileRecord where
  image : JsValue
  online : JsValue
  username : JsValue
  displayName : JsValue
  followingCount : JsValue
  followerCount : JsValue

/-- The record literal returned by `parseUserData` once its guard has passed,
including the ID-recovery fallback that scans `Object.keys(userData)` for a key
containing `"user-"`. -/
def mkUserRecord (userData : JsValue) : UserRecord :=
  let data := userData.get "data"
  let id0 := jsOr (data.get "id") (data.get "_id")
  let id1 :=
    if !truthy id0 && truthy (userData.get "data") then
      match (objKeys userData).find? (fun key => containsSub key "user-") with
      | some idMatch => JsValue.str (replaceFirst idMatch "user-" "")
      | none => id0
    else id0
  { id := jsOr id1 (.str "unknown")
    username := jsOr (data.get "username") (jsOr (data.get "avatarname") (.str ""))
    displayName := jsOr (data.get "display_name") (jsOr (data.get "displayName") (.str ""))
    gender := jsOr (data.get "gender") (.str "")
    age := jsOr (data.get "age") .null
    country := jsOr (data.get "country") (.str "")
    state := jsOr (data.get "state") (.str "")
    avatarImage := jsOr (data.get "avatar_image") (jsOr (data.get "avatarImage") (.str ""))
    avatarPortraitImage :=
      jsOr (data.get "avatar_portrait_image") (jsOr (data.get "avatarPortraitImage") (.str ""))
    isVip := jsOr (data.get "is_vip") (jsOr (data.get "isVip") (.bool false))
    isCreator := jsOr (data.get "is_creator") (jsOr (data.get "isCreator") (.bool false))
    isAp := jsOr (data.get "is_ap") (jsOr (data.get "isAp") (.bool false))
    isStaff := jsOr (data.get "is_staff") (jsOr (data.get "isStaff") (.bool false))
    isAdult := jsOr (data.get "is_adult") (jsOr (data.get "isAdult") (.bool false))
    isAgeVerified := jsOr (data.get "is_ageverified") (jsOr (data.get "isAgeVerified") (.bool false))
    created := jsOr (data.get "created") (jsOr (data.get "created_datetime") .date)
    registered := jsOr (data.get "registered") (jsOr (data.get "registered_datetime") .date) }

/-- `parseUserData`: `null` when the payload or its `data` member is falsy,
otherwise the normalized record. -/
def parseUserData (userData : JsValue) : Option UserRecord :=
  if truthy userData && truthy (userData.get "data") then some (mkUserRecord userData)
  else none

/-- The record literal returned by `parseAvatarData` once its guard has passed. -/
def mkAvatarRecord (avatarData : JsValue) : AvatarRecord :=
  let data := avatarData.get "data"
  { lookUrl := jsOr (data.get "look_url") (jsOr (data.get "lookUrl") (.str ""))
    assetUrl := jsOr (data.get "asset_url") (jsOr (data.get "assetUrl") (.str ""))
    gender := jsOr (data.get "gender") (.str "")
    products := jsOr (data.get "products") (.arr []) }

/-- `parseAvatarData`. -/
def parseAvatarData (avatarData : JsValue) : Option AvatarRecord :=
  if truthy avatarData && truthy (avatarData.get "data") then some (mkAvatarRecord avatarData)
  else none

/-- The record literal returned by `parseProfileData` once its guard has passed. -/
def mkProfileRecord (profileData : JsValue) : ProfileRecord :=
  let data := profileData.get "data"
  { image := jsOr (data.get "image") (.str "")
    online := jsOr (data.get "online") (.bool false)
    username := jsOr (data.get "avatar_name") (jsOr (data.get "avatarName") (.str ""))
    displayName := jsOr (data.get "title") (.str "")
    followingCount := jsOr (data.get "approx_following_count") (jsOr (data.get "followingCount") (.num 0))
    followerCount := jsOr (data.get "approx_follower_count") (jsOr (data.get "followerCount") (.num 0)) }

/-- `parseProfileData`. -/
def parseProfileData (profileData : JsValue) : Option ProfileRecord :=
  if truthy profileData && truthy (profileData.get "data") then some (mkProfileRecord profileData)
  else none

/-- An outgoing HTTP request of the client: the `url` passed to
`this.request` and the query parameters from the request config. -/
structure Req where
  url : String
  params : List (String × String)
deriving DecidableEq

/-- Outcome of one HTTP exchange at the axios layer: a parsed response body, or
a transport failure (network error / timeout), which axios surfaces as a
rejection. -/
inductive HttpResult where
  | ok (data : JsValue)
  | transportError

/-- The upstream API, modelled as a map from requests to transport outcomes. -/
def Env : Type := Req → HttpResult

/-- The request built by `getUserById`. -/
def userByIdReq (id : String) : Req := ⟨"/user/user-" ++ id, []⟩

/-- The request built by `getUserByUsername`. -/
def userSearchReq (username : String) : Req := ⟨"/user", [("username", username)]⟩

/-- The request built by `getAvatarData`. -/
def avatarReq (userId : String) : Req := ⟨"/avatar/avatar-" ++ userId, []⟩

/-- The request built by `getProfileData`. -/
def profileReq (userId : String) : Req := ⟨"/profile/profile-user-" ++ userId, []⟩

/-- The `request` method: issues the call and throws (`error`) on a transport
failure or when the response body carries `status === 'failure'` (reading
`.status` of a `null`/`undefined` body also throws). -/
def requestCall (env : Env) (req : Req) : Except Unit JsValue :=
  match env req with
  | .transportError => .error ()
  | .ok data =>
    match getOrThrow data "status" with
    | .error _ => .error ()
    | .ok st => if strictEqStr st "failure" then .error () else .ok data

/-- `response.denormalized[response.id]`: dereference the root entry of a
denormalized envelope. -/
def derefRoot (response : JsValue) : JsValue :=
  (response.get "denormalized").get (jsToString (response.get "id"))

/-- `getUserById`: fetch `/user/user-<id>`, dereference the envelope root and
normalize it; every failure is caught and becomes `null`. The second component
records the requests issued. -/
def getUserById (env : Env) (id : String) : Option UserRecord × List Req :=
  (match requestCall env (userByIdReq id) with
   | .error _ => none
   | .ok response =>
     if truthy (response.get "denormalized") && truthy (response.get "id") then
       parseUserData (derefRoot response)
     else none,
   [userByIdReq id])

/-- `getUserByUsername`: fetch `/user?username=<u>`; when the dereferenced root
entry is a search wrapper with a non-empty `items` list, dereference the first
item in the same envelope and normalize that entry, otherwise normalize the
root entry itself; every failure (including the `TypeError` thrown by reading
`.data` of an absent root entry) is caught and becomes `null`. -/
def getUserByUsername (env : Env) (username : String) : Option UserRecord × List Req :=
  (match requestCall env (userSearchReq username) with
   | .error _ => none
   | .ok response =>
     if truthy (response.get "denormalized") && truthy (response.get "id") then
       match getOrThrow (derefRoot response) "data" with
       | .error _ => none
       | .ok dataV =>
         if truthy dataV && truthy (dataV.get "items") && jsLenPos (dataV.get "items") then
           parseUserData
             ((response.get "denormalized").get (jsToString (jsIndex0 (dataV.get "items"))))
         else parseUserData (derefRoot response)
     else none,
   [userSearchReq username])

/-- `getAvatarData`: fetch `/avatar/avatar-<userId>` and normalize the
envelope root; every failure is caught and becomes `null`. -/
def getAvatarData (env : Env) (userId : String) : Option AvatarRecord × List Req :=
  (match requestCall env (avatarReq userId) with
   | .error _ => none
   | .ok response =>
     if truthy (response.get "denormalized") && truthy (response.get "id") then
       parseAvatarData (derefRoot response)
     else none,
   [avatarReq userId])

/-- `getProfileData`: fetch `/profile/profile-user-<userId>` and normalize the
envelope root; every failure is caught and becomes `null`. -/
def getProfileData (env : Env) (userId : String) : Option ProfileRecord × List Req :=
  (match requestCall env (profileReq userId) with
   | .error _ => none
   | .ok response =>
     if truthy (response.get "denormalized") && truthy (response.get "id") then
       parseProfileData (derefRoot response)
     else none,
   [profileReq userId])

/-- The primary lookup of `getUserData`: the `/^\d+$/` heuristic dispatches to
`getUserById` for all-digit queries and `getUserByUsername` otherwise. -/
def primaryUser (env : Env) (query : String) : Option UserRecord × List Req :=
  if isNumericString query then getUserById env query else getUserByUsername env query

/-- The combined result of `getUserData`: the mandatory user record plus the
independently fetched avatar and profile records, either of which may be
absent. -/
structure CombinedResult where
  user : UserRecord
  avatar : Option AvatarRecord
  profile : Option ProfileRecord

/-- `getUserData`: resolve the query to a user record (or `null`), then fetch
avatar and profile keyed by the resolved user's id, each sub-fetch failure
independently degrading to `null` (`.catch(() => null)` around each arm of the
`Promise.all`). -/
def getUserData (env : Env) (query : String) : Option CombinedResult × List Req :=
  match (primaryUser env query).1 with
  | none => (none, (primaryUser env query).2)
  | some user =>
    (some ⟨user, (getAvatarData env (jsToString user.id)).1,
           (getProfileData env (jsToString user.id)).1⟩,
     (primaryUser env query).2 ++ (getAvatarData env (jsToString user.id)).2
       ++ (getProfileData env (jsToString user.id)).2)

/-- The mutable session state of `IMVUClient` that `login` touches. -/
structure Session where
  authenticated : Bool
  sauce : JsValue
  username : String
  password : String

/-- The two upstream responses a `login` attempt consumes: `POST /login` and
`GET /login/me`. -/
structure LoginEnv where
  loginResp : HttpResult
  meResp : HttpResult

/-- The `catch` block of `login`: clear the token and the authenticated flag. -/
def clearAuth (s : Session) : Session :=
  { s with authenticated := false, sauce := .str "" }

/-- `login`: store the credentials, POST them, check the failure marker, GET
`/login/me`, check its failure marker, conditionally extract
`denormalized[id].data.sauce` into the session (leaving the previous token in
place when the envelope lacks `denormalized` or `id`), fail unless the stored
token is truthy, and only then mark the session authenticated. Every thrown
error lands in the `catch`, which clears the token and flag and rethrows. -/
def login (env : LoginEnv) (s0 : Session) (username password : String) :
    Session × Except Unit Bool :=
  let s1 := { s0 with username := username, password := password }
  match env.loginResp with
  | .transportError => (clearAuth s1, .error ())
  | .ok loginData =>
    match getOrThrow loginData "status" with
    | .error _ => (clearAuth s1, .error ())
    | .ok st1 =>
      if strictEqStr st1 "failure" then (clearAuth s1, .error ())
      else
        match env.meResp with
        | .transportError => (clearAuth s1, .error ())
        | .ok meData =>
          match getOrThrow meData "status" with
          | .error _ => (clearAuth s1, .error ())
          | .ok st2 =>
            if strictEqStr st2 "failure" then (clearAuth s1, .error ())
            else
              let extracted : Except Unit Session :=
                if truthy (meData.get "denormalized") && truthy (meData.get "id") then
                  match getOrThrow (derefRoot meData) "data" with
                  | .error _ => .error ()
                  | .ok dataV =>
                    match getOrThrow dataV "sauce" with
                    | .error _ => .error ()
                    | .ok sauceV => .ok { s1 with sauce := jsOr sauceV (.str "") }
                else .ok s1
              match extracted with
              | .error _ => (clearAuth s1, .error ())
              | .ok s2 =>
                if truthy s2.sauce then ({ s2 with authenticated := true }, .ok true)
                else (clearAuth s2, .error ())

/-! Helper lemmas about the JavaScript-value operations. -/

theorem jsOr_of_truthy {a : JsValue} (b : JsValue) (h : truthy a = true) : jsOr a b = a := by
  simp [jsOr, h]

theorem jsOr_of_falsy {a : JsValue} (b : JsValue) (h : truthy a = false) : jsOr a b = b := by
  simp [jsOr, h]

theorem getOrThrow_of_truthy {v : JsValue} {k : String}
    (h : truthy (v.get k) = true) : getOrThrow v k = .ok (v.get k) := by
  cases v <;> first
    | rfl
    | (exfalso; simp [JsValue.get, truthy] at h)

theorem hasKey_false_get {v : JsValue} {k : String} (h : hasKey v k = false) :
    v.get k = .undefined := by
  cases v <;> try rfl
  case obj fields =>
    simp only [hasKey, List.any_eq_false] at h
    simp only [JsValue.get]
    rw [List.find?_eq_none.mpr h]

theorem parseUserData_some {u : JsValue} {r : UserRecord}
    (h : parseUserData u = some r) : r = mkUserRecord u := by
  unfold parseUserData at h
  split at h
  · exact (Option.some.inj h).symm
  · exact Option.noConfusion h

theorem parseProfileData_some {p : JsValue} {r : ProfileRecord}
    (h : parseProfileData p = some r) : r = mkProfileRecord p := by
  unfold parseProfileData at h
  split at h
  · exact (Option.some.inj h).symm
  · exact Option.noConfusion h

/-- Claim C5: a query consisting of one or more decimal digits and nothing
else resolves through the direct-by-ID path (the primary lookup is
`getUserById` and the first request issued is `/user/user-<query>`); every
other query resolves through the search-by-username path (the primary lookup
is `getUserByUsername` and the first request issued is the `/user` search
parameterized by the username). -/
theorem numeric_query_dispatch (env : Env) (q : String) :
    (isNumericString q = true →
      primaryUser env q = getUserById env q ∧
      (getUserData env q).2.head? = some (userByIdReq q)) ∧
    (isNumericString q = false →
      primaryUser env q = getUserByUsername env q ∧
      (getUserData env q).2.head? = some (userSearchReq q)) := by
  constructor
  · intro h
    have hp : primaryUser env q = getUserById env q := by simp [primaryUser, h]
    refine ⟨hp, ?_⟩
    unfold getUserData
    rw [hp]
    cases (getUserById env q).1 <;> rfl
  · intro h
    have hp : primaryUser env q = getUserByUsername env q := by simp [primaryUser, h]
    refine ⟨hp, ?_⟩
    unfold getUserData
    rw [hp]
    cases (getUserByUsername env q).1 <;> rfl

/-- A transport-failing environment used to instantiate universally quantified
claims at concrete inputs. -/
def envDown : Env := fun _ => .transportError

/-- Witness for C5: the all-digit query `"42"` issues `/user/user-42` first,
and the non-numeric query `"abc"` issues the `/user` username search first. -/
theorem numeric_query_dispatch_witness :
    (isNumericString "42" = true ∧
      (getUserData envDown "42").2.head? = some (userByIdReq "42")) ∧
    (isNumericString "abc" = false ∧
      (getUserData envDown "abc").2.head? = some (userSearchReq "abc")) :=
  ⟨⟨rfl, ((numeric_query_dispatch envDown "42").1 rfl).2⟩,
   ⟨rfl, ((numeric_query_dispatch envDown "abc").2 rfl).2⟩⟩

/-- Claim C9: the request issued by `getUserById` for an ID is exactly
`/user/user-<id>`, by `getAvatarData` exactly `/avatar/avatar-<id>`, and by
`getProfileData` exactly `/profile/profile-user-<id>`; in particular ID `42`
yields `/user/user-42`, `/avatar/avatar-42`, `/profile/profile-user-42`. -/
theorem resource_paths_exact (env : Env) (id : String) :
    (getUserById env id).2 = [⟨"/user/user-" ++ id, []⟩] ∧
    (getAvatarData env id).2 = [⟨"/avatar/avatar-" ++ id, []⟩] ∧
    (getProfileData env id).2 = [⟨"/profile/profile-user-" ++ id, []⟩] ∧
    (getUserById env "42").2 = [⟨"/user/user-42", []⟩] ∧
    (getAvatarData env "42").2 = [⟨"/avatar/avatar-42", []⟩] ∧
    (getProfileData env "42").2 = [⟨"/profile/profile-user-42", []⟩] :=
  ⟨rfl, rfl, rfl, rfl, rfl, rfl⟩

/-- Claim C7: whenever the primary lookup succeeds with user `u`, the combined
result is `some` with `u` as its user and the independently computed avatar and
profile components; a failing avatar request makes the avatar component `null`
(and symmetrically for profile) without failing the lookup; and each
sub-fetch's result depends only on the response to its own request, so a
failure of one cannot affect the other. -/
theorem sub_fetch_isolation (env : Env) (q : String) (u : UserRecord)
    (hu : (primaryUser env q).1 = some u) :
    (getUserData env q).1 =
      some ⟨u, (getAvatarData env (jsToString u.id)).1,
            (getProfileData env (jsToString u.id)).1⟩ ∧
    (requestCall env (avatarReq (jsToString u.id)) = .error () →
      (getAvatarData env (jsToString u.id)).1 = none) ∧
    (requestCall env (profileReq (jsToString u.id)) = .error () →
      (getProfileData env (jsToString u.id)).1 = none) ∧
    (∀ env2 : Env, env2 (avatarReq (jsToString u.id)) = env (avatarReq (jsToString u.id)) →
      (getAvatarData env2 (jsToString u.id)).1 = (getAvatarData env (jsToString u.id)).1) ∧
    (∀ env2 : Env, env2 (profileReq (jsToString u.id)) = env (profileReq (jsToString u.id)) →
      (getProfileData env2 (jsToString u.id)).1 = (getProfileData env (jsToString u.id)).1) := by
  refine ⟨?_, ?_, ?_, ?_, ?_⟩
  · unfold getUserData
    rw [hu]
  · intro h
    unfold getAvatarData
    rw [h]
  · intro h
    unfold getProfileData
    rw [h]
  · intro env2 h
    unfold getAvatarData requestCall
    rw [h]
  · intro env2 h
    unfold getProfileData requestCall
    rw [h]

/-- Envelope returned for `/user/user-7` in the C7 witness. -/
def bodyU7 : JsValue :=
  .obj [("denormalized",
          .obj [("user-7", .obj [("data", .obj [("id", .str "7"), ("username", .str "seven")])])]),
        ("id", .str "user-7")]

/-- Envelope returned for `/profile/profile-user-7` in the C7 witness. -/
def bodyP7 : JsValue :=
  .obj [("denormalized",
          .obj [("profile-user-7", .obj [("data", .obj [("title", .str "Seven")])])]),
        ("id", .str "profile-user-7")]

/-- Environment for the C7 witness: the user and profile requests succeed, the
avatar request fails at the transport layer. -/
def env7 : Env := fun r =>
  if r = userByIdReq "7" then .ok bodyU7
  else if r = profileReq "7" then .ok bodyP7
  else .transportError

/-- The user record normalized from `bodyU7`. -/
def u7 : UserRecord :=
  { id := .str "7", username := .str "seven", displayName := .str "", gender := .str "",
    age := .null, country := .str "", state := .str "", avatarImage := .str "",
    avatarPortraitImage := .str "", isVip := .bool false, isCreator := .bool false,
    isAp := .bool false, isStaff := .bool false, isAdult := .bool false,
    isAgeVerified := .bool false, created := .date, registered := .date }

/-- The profile record normalized from `bodyP7`. -/
def p7 : ProfileRecord :=
  { image := .str "", online := .bool false, username := .str "",
    displayName := .str "Seven", followingCount := .num 0, followerCount := .num 0 }

/-- Witness for C7: with the avatar endpoint down and the profile endpoint up,
the lookup of `"7"` still succeeds, with `avatar = null` and the profile
populated. -/
theorem sub_fetch_isolation_witness :
    (primaryUser env7 "7").1 = some u7 ∧
    (getUserData env7 "7").1 = some ⟨u7, none, some p7⟩ :=
  ⟨rfl, ((sub_fetch_isolation env7 "7" u7 rfl).1).trans rfl⟩

/-- Claim C6: when the username-search response dereferences to a root entry
whose `data.items` list is non-empty, the resolver uses the first element of
`items` as a key into the same denormalized envelope and returns the
normalization of that entry, not of the wrapper entry itself. -/
theorem search_dereferences_first_item (env : Env) (username : String) (resp : JsValue)
    (hr : requestCall env (userSearchReq username) = .ok resp)
    (hd : truthy (resp.get "denormalized") = true)
    (hi : truthy (resp.get "id") = true)
    (hdat : truthy ((derefRoot resp).get "data") = true)
    (hit : truthy (((derefRoot resp).get "data").get "items") = true)
    (hlen : jsLenPos (((derefRoot resp).get "data").get "items") = true) :
    (getUserByUsername env username).1 =
      parseUserData ((resp.get "denormalized").get
        (jsToString (jsIndex0 (((derefRoot resp).get "data").get "items")))) := by
  unfold getUserByUsername
  simp only [hr]
  rw [getOrThrow_of_truthy hdat]
  simp [hd, hi, hdat, hit, hlen]

/-- Search envelope of the spec's example: the root entry is a wrapper whose
`items` holds the key `user-12345`, and a second entry carries the user. -/
def respC6 : JsValue :=
  .obj [("id", .str "search"),
        ("denormalized",
          .obj [("search", .obj [("data", .obj [("items", .arr [.str "user-12345"])])]),
                ("user-12345",
                  .obj [("data", .obj [("id", .str "12345"), ("username", .str "abc")])])])]

/-- Environment for the C6 witness. -/
def envC6 : Env := fun r => if r = userSearchReq "abc" then .ok respC6 else .transportError

/-- The user record normalized from the dereferenced `user-12345` entry. -/
def recC6 : UserRecord :=
  { id := .str "12345", username := .str "abc", displayName := .str "", gender := .str "",
    age := .null, country := .str "", state := .str "", avatarImage := .str "",
    avatarPortraitImage := .str "", isVip := .bool false, isCreator := .bool false,
    isAp := .bool false, isStaff := .bool false, isAdult := .bool false,
    isAgeVerified := .bool false, created := .date, registered := .date }

/-- Witness for C6: the query `"abc"` against `respC6` resolves to the second
entry's normalized data (`id = "12345"`, `username = "abc"`), not to the
wrapper's. -/
theorem search_dereferences_first_item_witness :
    requestCall envC6 (userSearchReq "abc") = .ok respC6 ∧
    (getUserByUsername envC6 "abc").1 = some recC6 :=
  ⟨rfl,
   (search_dereferences_first_item envC6 "abc" respC6 rfl rfl rfl rfl rfl rfl).trans rfl⟩

/-- Claim C10: a user payload with a `data` object from which no ID is
obtainable (no `id` key, no `_id` key, and no payload key containing the
`user-` marker) still normalizes to a record, and its id is the literal string
`"unknown"`. -/
theorem missing_id_yields_unknown (u : JsValue)
    (h1 : truthy u = true)
    (h2 : truthy (u.get "data") = true)
    (h3 : hasKey (u.get "data") "id" = false)
    (h4 : hasKey (u.get "data") "_id" = false)
    (h5 : (objKeys u).find? (fun key => containsSub key "user-") = none) :
    (parseUserData u).map UserRecord.id = some (JsValue.str "unknown") := by
  have g3 : (u.get "data").get "id" = .undefined := hasKey_false_get h3
  have g4 : (u.get "data").get "_id" = .undefined := hasKey_false_get h4
  have tu : truthy JsValue.undefined = false := rfl
  simp [parseUserData, h1, h2, mkUserRecord, g3, g4, h5, jsOr, tu]

/-- A user payload with a `data` object but no recoverable ID. -/
def uNoId : JsValue := .obj [("data", .obj [("username", .str "bob")])]

/-- Witness for C10: `uNoId` normalizes to a record whose id is `"unknown"`. -/
theorem missing_id_yields_unknown_witness :
    truthy (uNoId.get "data") = true ∧
    (parseUserData uNoId).map UserRecord.id = some (JsValue.str "unknown") :=
  ⟨rfl, missing_id_yields_unknown uNoId rfl rfl rfl rfl rfl⟩

/-- The truthiness-priority selection the code's `a || b || d` chains
implement for a dual-convention field: the snake\_case value when truthy,
otherwise the camelCase value when truthy, otherwise the default. -/
def selectsByTruthiness (snake camel dflt result : JsValue) : Prop :=
  (truthy snake = true → result = snake) ∧
  (truthy snake = false → truthy camel = true → result = camel) ∧
  (truthy snake = false → truthy camel = false → result = dflt)

theorem jsOr_chain (a b c : JsValue) : selectsByTruthiness a b c (jsOr a (jsOr b c)) := by
  refine ⟨fun h => ?_, fun h1 h2 => ?_, fun h1 h2 => ?_⟩ <;> simp [jsOr, *]

/-- User payload refuting C2 as stated: `is_vip` is present with the falsy
value `false` while `isVip` is `true`. -/
def uC2 : JsValue :=
  .obj [("data", .obj [("id", .str "9"), ("is_vip", .bool false), ("isVip", .bool true)])]

/-- Counterexample to C2 as stated: the snake\_case key `is_vip` is present in
the payload (bound to `false`), yet normalization does not select its value —
the normalized flag is the camelCase key's `true`. -/
theorem snake_case_presence_not_selected :
    hasKey (uC2.get "data") "is_vip" = true ∧
    (uC2.get "data").get "is_vip" = JsValue.bool false ∧
    (parseUserData uC2).map UserRecord.isVip = some (JsValue.bool true) :=
  ⟨rfl, rfl, rfl⟩

/-- Claim C2 (amended): for every canonical field with both a snake\_case and
a camelCase source key, normalization selects the snake\_case key's value
whenever that value is truthy, falls back to the camelCase key's value when
the snake\_case value is absent or falsy, and to the type-appropriate default
when both are absent or falsy; the choice is made independently for each field
of the record (the payload is otherwise arbitrary). -/
theorem dual_key_truthiness_chain :
    (∀ (u : JsValue) (r : UserRecord), parseUserData u = some r →
      selectsByTruthiness ((u.get "data").get "display_name")
        ((u.get "data").get "displayName") (.str "") r.displayName ∧
      selectsByTruthiness ((u.get "data").get "avatar_image")
        ((u.get "data").get "avatarImage") (.str "") r.avatarImage ∧
      selectsByTruthiness ((u.get "data").get "avatar_portrait_image")
        ((u.get "data").get "avatarPortraitImage") (.str "") r.avatarPortraitImage ∧
      selectsByTruthiness ((u.get "data").get "is_vip")
        ((u.get "data").get "isVip") (.bool false) r.isVip ∧
      selectsByTruthiness ((u.get "data").get "is_creator")
        ((u.get "data").get "isCreator") (.bool false) r.isCreator ∧
      selectsByTruthiness ((u.get "data").get "is_ap")
        ((u.get "data").get "isAp") (.bool false) r.isAp ∧
      selectsByTruthiness ((u.get "data").get "is_staff")
        ((u.get "data").get "isStaff") (.bool false) r.isStaff ∧
      selectsByTruthiness ((u.get "data").get "is_adult")
        ((u.get "data").get "isAdult") (.bool false) r.isAdult ∧
      selectsByTruthiness ((u.get "data").get "is_ageverified")
        ((u.get "data").get "isAgeVerified") (.bool false) r.isAgeVerified) ∧
    (∀ (p : JsValue) (r : ProfileRecord), parseProfileData p = some r →
      selectsByTruthiness ((p.get "data").get "avatar_name")
        ((p.get "data").get "avatarName") (.str "") r.username ∧
      selectsByTruthiness ((p.get "data").get "approx_following_count")
        ((p.get "data").get "followingCount") (.num 0) r.followingCount ∧
      selectsByTruthiness ((p.get "data").get "approx_follower_count")
        ((p.get "data").get "followerCount") (.num 0) r.followerCount) := by
  constructor
  · intro u r h
    obtain rfl := parseUserData_some h
    exact ⟨jsOr_chain _ _ _, jsOr_chain _ _ _, jsOr_chain _ _ _, jsOr_chain _ _ _,
           jsOr_chain _ _ _, jsOr_chain _ _ _, jsOr_chain _ _ _, jsOr_chain _ _ _,
           jsOr_chain _ _ _⟩
  · intro p r h
    obtain rfl := parseProfileData_some h
    exact ⟨jsOr_chain _ _ _, jsOr_chain _ _ _, jsOr_chain _ _ _⟩

/-- A user payload carrying a truthy snake\_case `display_name`. -/
def uDual : JsValue := .obj [("data", .obj [("id", .str "3"), ("display_name", .str "D")])]

/-- Witness for the amended C2: on `uDual` the truthy snake\_case value is
selected. -/
theorem dual_key_truthiness_chain_witness :
    parseUserData uDual = some (mkUserRecord uDual) ∧
    (mkUserRecord uDual).displayName = JsValue.str "D" :=
  ⟨rfl, (((dual_key_truthiness_chain.1 uDual (mkUserRecord uDual) rfl).1).1 rfl).trans rfl⟩

/-- A user payload whose `data` member holds exactly the given fields. -/
def userPayload (fields : List (String × JsValue)) : JsValue :=
  .obj [("data", .obj fields)]

/-- Claim C8: for every dual-convention canonical field and every value `v`,
the payload carrying `v` under the snake\_case key (camelCase absent)
normalizes to the same record as the payload carrying `v` under the camelCase
key (snake\_case absent) — for each dual-convention field of `parseUserData`
and of `parseAvatarData`. -/
theorem dual_convention_commutes (v : JsValue) :
    parseUserData (userPayload [("display_name", v)]) =
      parseUserData (userPayload [("displayName", v)]) ∧
    parseUserData (userPayload [("avatar_image", v)]) =
      parseUserData (userPayload [("avatarImage", v)]) ∧
    parseUserData (userPayload [("avatar_portrait_image", v)]) =
      parseUserData (userPayload [("avatarPortraitImage", v)]) ∧
    parseUserData (userPayload [("is_vip", v)]) =
      parseUserData (userPayload [("isVip", v)]) ∧
    parseUserData (userPayload [("is_creator", v)]) =
      parseUserData (userPayload [("isCreator", v)]) ∧
    parseUserData (userPayload [("is_ap", v)]) =
      parseUserData (userPayload [("isAp", v)]) ∧
    parseUserData (userPayload [("is_staff", v)]) =
      parseUserData (userPayload [("isStaff", v)]) ∧
    parseUserData (userPayload [("is_adult", v)]) =
      parseUserData (userPayload [("isAdult", v)]) ∧
    parseUserData (userPayload [("is_ageverified", v)]) =
      parseUserData (userPayload [("isAgeVerified", v)]) ∧
    parseAvatarData (userPayload [("look_url", v)]) =
      parseAvatarData (userPayload [("lookUrl", v)]) ∧
    parseAvatarData (userPayload [("asset_url", v)]) =
      parseAvatarData (userPayload [("assetUrl", v)]) :=
  ⟨rfl, rfl, rfl, rfl, rfl, rfl, rfl, rfl, rfl, rfl, rfl⟩

/-- Username-search envelope whose root entry has an empty `items` list — the
query matched no account. -/
def respC1 : JsValue :=
  .obj [("denormalized", .obj [("search-q", .obj [("data", .obj [("items", .arr [])])])]),
        ("id", .str "search-q")]

/-- Environment for the C1 failing input. -/
def envC1 : Env := fun r => if r = userSearchReq "noone" then .ok respC1 else .transportError

/-- The record `parseUserData` builds from the empty search wrapper itself. -/
def recWrapper : UserRecord :=
  { id := .str "unknown", username := .str "", displayName := .str "", gender := .str "",
    age := .null, country := .str "", state := .str "", avatarImage := .str "",
    avatarPortraitImage := .str "", isVip := .bool false, isCreator := .bool false,
    isAp := .bool false, isStaff := .bool false, isAdult := .bool false,
    isAgeVerified := .bool false, created := .date, registered := .date }

/-- Claim C1, evaluated at its failing input: the dereferenced root entry of
the search response carries an empty `items` list, yet `getUserByUsername`
does not return the not-found result — because an empty array is truthy but
fails `length > 0`, the code's `else` branch normalizes the wrapper entry
itself and returns a fabricated record with id `"unknown"`. -/
theorem empty_items_normalizes_wrapper :
    ((derefRoot respC1).get "data").get "items" = JsValue.arr [] ∧
    (getUserByUsername envC1 "noone").1 = some recWrapper :=
  ⟨rfl, rfl⟩

/-- Envelope for `/user/user-123` whose only entry is keyed `user-123` and
whose `data` carries neither `id` nor `_id`. -/
def respC3 : JsValue :=
  .obj [("denormalized", .obj [("user-123", .obj [("data", .obj [("username", .str "x")])])]),
        ("id", .str "user-123")]

/-- Environment for the C3 failing input. -/
def envC3 : Env := fun r => if r = userByIdReq "123" then .ok respC3 else .transportError

/-- Claim C3, evaluated at its failing input: the envelope's only user entry is
keyed `user-123` and the payload carries no `id`/`_id`, yet the normalized id
is `"unknown"`, not `"123"` — the recovery scans `Object.keys(userData)` of
the dereferenced entry (which are just `["data"]`), never the envelope's keys
where `user-123` lives. -/
theorem envelope_key_recovery_fails :
    hasKey ((derefRoot respC3).get "data") "id" = false ∧
    hasKey ((derefRoot respC3).get "data") "_id" = false ∧
    objKeys (derefRoot respC3) = ["data"] ∧
    objKeys (respC3.get "denormalized") = ["user-123"] ∧
    (getUserById envC3 "123").1.map UserRecord.id = some (JsValue.str "unknown") :=
  ⟨rfl, rfl, rfl, rfl, rfl⟩

/-- A session left over from a previous successful login: authenticated, with
a stored token. -/
def staleSession : Session := ⟨true, .str "stale", "olduser", "oldpass"⟩

/-- The `/login/me` body of the C4 failing input: no failure marker, but also
no `denormalized` map and no `id`, so no sauce token is obtainable from it. -/
def meBodyC4 : JsValue := .obj [("status", .str "ok")]

/-- Login environment for the C4 failing input. -/
def envC4 : LoginEnv := ⟨.ok (.obj [("status", .str "ok")]), .ok meBodyC4⟩

/-- Claim C4, evaluated at its failing input: the `/login/me` envelope yields
no sauce token (it has no `denormalized` map), yet because the extraction is
skipped entirely, the previously stored token survives the `!this.sauce`
check and the attempt ends authenticated with the stale token and returns
success — not with `isAuthenticated = false` and an empty token. -/
theorem stale_token_login_succeeds :
    hasKey meBodyC4 "denormalized" = false ∧
    login envC4 staleSession "newuser" "newpass" =
      (⟨true, .str "stale", "newuser", "newpass"⟩, .ok true) :=
  ⟨rfl, rfl⟩

end IMVU
